import Mathlib

/-!
Verification of the client-side widget-readiness coordinator of a portfolio
website.  The development shallowly embeds three source files:

* `resource/script/recaptcha-display.js` (the complete backoff/error-UI
  variant, i.e. the first IIFE of the file): namespace `RecaptchaDisplay`;
* `resource/script/form.js`: namespace `FormJs`;
* `anchor-scroll.js`: namespace `AnchorScroll`.

Pure state is passed explicitly; DOM side effects (node replacement, render
calls, timers, native form submissions) are recorded as explicit effect
events so that frame conditions ("no render call happened") are statements
about an effect trace.  The outcome of the third-party
`grecaptcha.render` call is an oracle (`renderResults`) consumed one entry
per call: `some w` means the call returned widget id `w`, `none` means it
threw synchronously.
-/

namespace RecaptchaDisplay

/-- Config constant `BREAKPOINT = 410` from recaptcha-display.js. -/
def BREAKPOINT : Nat := 410

/-- Config constant `MAX_RENDER_RETRIES = 5` from recaptcha-display.js. -/
def MAX_RENDER_RETRIES : Nat := 5

/-- Config constant `RETRY_BASE_MS = 700` from recaptcha-display.js. -/
def RETRY_BASE_MS : Nat := 700

/-- Terminal error text shown when the retry ceiling is reached. -/
def maxRetriesMessage : String :=
  "reCAPTCHA failed to load. Please disable adblockers or check your network/permissions."

/-- Per-element retry record stored in the `retryState` WeakMap:
`{ attempts, scheduled }`. -/
structure RetrySt where
  attempts : Nat
  scheduled : Bool
deriving Repr, DecidableEq

/-- A `.g-recaptcha` placeholder element.  `id` is the element's identity
(a fresh node gets a fresh id); the remaining fields are the attributes the
coordinator reads and writes (`data-recaptcha-widget-id`, `data-size`,
`data-recaptcha-rendered-size`, `data-sitekey`, `data-theme`). -/
structure Elem where
  id : Nat
  widgetIdAttr : Option Nat
  sizeAttr : Option String
  renderedSizeAttr : Option String
  sitekey : Option String
  theme : Option String
deriving Repr, DecidableEq

/-- Observable DOM / timer effects emitted by the coordinator. -/
inductive Effect where
  | replacedNode (oldId newId : Nat)
  | renderCall (elemId : Nat)
  | timerSet (elemId : Nat) (delayMs : Nat)
  | submitNative
deriving Repr, DecidableEq

/-- Whole coordinator state: the module-level variables of the IIFE plus the
part of the DOM it touches (one contact form with one recaptcha container
holding one placeholder, as in the page).  `renderResults` is the oracle
for `grecaptcha.render` outcomes; `readyQueueLen` counts `attemptRender`
thunks parked in `grecaptchaReadyQueue`. -/
structure Coord where
  viewportWidth : Nat
  grecaptchaAvailable : Bool
  grecaptchaReady : Bool
  readyQueueLen : Nat
  formPresent : Bool
  containerPresent : Bool
  containerHiddenClass : Bool
  curElem : Option Elem
  retry : List (Nat × RetrySt)
  timers : List (Nat × Nat)
  errorText : Option String
  nextId : Nat
  renderResults : List (Option Nat)
  allowSubmit : Bool
  hiddenTokens : List String
deriving Repr, DecidableEq

/-- Reading the WeakMap: `retryState.get(el) || { attempts: 0, scheduled: false }`. -/
def lookupRetry (m : List (Nat × RetrySt)) (e : Nat) : RetrySt :=
  (m.lookup e).getD ⟨0, false⟩

/-- The WeakMap update `retryState.set(el, state)`. -/
def setEntry (m : List (Nat × RetrySt)) (e : Nat) (s : RetrySt) : List (Nat × RetrySt) :=
  (e, s) :: m.filter (fun p => !(p.1 == e))

/-- The WeakMap removal `retryState.delete(el)`. -/
def deleteEntry (m : List (Nat × RetrySt)) (e : Nat) : List (Nat × RetrySt) :=
  m.filter (fun p => !(p.1 == e))

/-- Function `desiredSize()`: compact below the breakpoint, `null` otherwise. -/
def desiredSize (viewportWidth : Nat) : Option String :=
  if viewportWidth < BREAKPOINT then some "compact" else none

/-- Function `scheduleRenderAttempt(container, callbacks)`: no-op when the
container or its placeholder is missing or a retry is already scheduled;
at or above the ceiling it shows the terminal inline error; otherwise it
computes `delay = RETRY_BASE_MS * 2 ** state.attempts`, marks the state
scheduled, increments `attempts`, and sets a timer. -/
def scheduleRenderAttempt (c : Coord) : Coord × List Effect :=
  if !c.containerPresent then (c, []) else
  match c.curElem with
  | none => (c, [])
  | some el =>
    let st := lookupRetry c.retry el.id
    if st.scheduled then (c, [])
    else if MAX_RENDER_RETRIES ≤ st.attempts then
      ({ c with errorText := some maxRetriesMessage, retry := setEntry c.retry el.id st }, [])
    else
      let delay := RETRY_BASE_MS * 2 ^ st.attempts
      ({ c with
          retry := setEntry c.retry el.id ⟨st.attempts + 1, true⟩,
          timers := c.timers ++ [(el.id, delay)] },
        [Effect.timerSet el.id delay])

/-- Result of `replaceAndMaybeRender`. -/
structure ReplaceResult where
  coord : Coord
  newId : Nat
  widgetId : Option Nat
  effects : List Effect

/-- Function `replaceAndMaybeRender(oldEl, size, callbacks)`: builds a fresh
node, copies every `data-*` attribute down, forces `data-size` and
`data-recaptcha-rendered-size` to the requested size (empty marker when the
size is `null`), swaps it into the DOM, and, when the API is available,
calls `grecaptcha.render`; a successful call stores the widget id on the
new node, a throw is caught and reported as `widgetId = none`. -/
def replaceAndMaybeRender (c : Coord) (old : Elem) (size : Option String) : ReplaceResult :=
  let newEl : Elem :=
    { id := c.nextId
      widgetIdAttr := old.widgetIdAttr
      sizeAttr := size
      renderedSizeAttr := some (size.getD "")
      sitekey := old.sitekey
      theme := old.theme }
  let c1 := { c with curElem := some newEl, nextId := c.nextId + 1 }
  let swap := Effect.replacedNode old.id newEl.id
  if c1.grecaptchaAvailable then
    match c1.renderResults with
    | some wid :: rest =>
      { coord := { c1 with curElem := some { newEl with widgetIdAttr := some wid },
                           renderResults := rest }
        newId := newEl.id
        widgetId := some wid
        effects := [swap, Effect.renderCall newEl.id] }
    | none :: rest =>
      { coord := { c1 with renderResults := rest }
        newId := newEl.id
        widgetId := none
        effects := [swap, Effect.renderCall newEl.id] }
    | [] =>
      { coord := c1
        newId := newEl.id
        widgetId := none
        effects := [swap, Effect.renderCall newEl.id] }
  else
    { coord := c1, newId := newEl.id, widgetId := none, effects := [swap] }

/-- Function `attemptRender(container, callbacks)`: clears the inline error,
early-returns when the current placeholder already carries a widget id and
the API is available, otherwise replaces-and-renders (success deletes the
new element's retry entry and clears the error again; failure routes to the
backoff scheduler); with the API absent it queues itself on the readiness
queue and also schedules a fallback retry. -/
def attemptRender (c : Coord) : Coord × List Effect :=
  if !c.containerPresent then (c, []) else
  let c0 := { c with errorText := none }
  match c0.curElem with
  | none => (c0, [])
  | some cur =>
    if cur.widgetIdAttr.isSome && c0.grecaptchaAvailable then (c0, [])
    else if c0.grecaptchaAvailable then
      let r := replaceAndMaybeRender c0 cur (desiredSize c0.viewportWidth)
      match r.widgetId with
      | some _ =>
        ({ r.coord with retry := deleteEntry r.coord.retry r.newId, errorText := none },
          r.effects)
      | none =>
        let s := scheduleRenderAttempt r.coord
        (s.1, r.effects ++ s.2)
    else
      let s := scheduleRenderAttempt { c0 with readyQueueLen := c0.readyQueueLen + 1 }
      (s.1, s.2)

/-- The first two statements of the `setTimeout` callback in
`scheduleRenderAttempt`: `state.scheduled = false; retryState.set(el, state)`,
plus the timer leaving the pending-timer pool.  The fired timer is the head
of the pool. -/
def timerFirePrologue (c : Coord) : Coord :=
  match c.timers with
  | [] => c
  | (eid, _) :: rest =>
    { c with
        timers := rest,
        retry := setEntry c.retry eid ⟨(lookupRetry c.retry eid).attempts, false⟩ }

/-- Firing the pending retry timer at the head of the pool: run the
`setTimeout` callback, i.e. the prologue followed by `attemptRender`. -/
def fireTimer (c : Coord) : Coord × List Effect :=
  match c.timers with
  | [] => (c, [])
  | _ :: _ => attemptRender (timerFirePrologue c)

/-- Callback `onRecaptchaSuccess(token)`: locate (or create and append) the
hidden `g-recaptcha-response` input, store the token, set `allowSubmit`,
and call `form.submit()` — a programmatic submission that bypasses the
`onsubmit` handler. -/
def onRecaptchaSuccess (c : Coord) (token : String) : Coord × List Effect :=
  if !c.formPresent then (c, []) else
  let tokens :=
    match c.hiddenTokens with
    | [] => [token]
    | _ :: rest => token :: rest
  ({ c with hiddenTokens := tokens, allowSubmit := true }, [Effect.submitNative])

/-- Result of the global `onSubmitForm` handler. -/
structure SubmitOutcome where
  coord : Coord
  effects : List Effect
  prevented : Bool
  retVal : Bool

/-- Global handler `window.onSubmitForm(event)` of recaptcha-display.js:
a set `allowSubmit` flag is consumed and the native submission is allowed
through; otherwise the event is prevented, the container is revealed if
hidden and a render attempt is triggered. -/
def onSubmitForm (c : Coord) : SubmitOutcome :=
  if c.allowSubmit then
    { coord := { c with allowSubmit := false }, effects := [], prevented := false, retVal := true }
  else if !c.formPresent then
    { coord := c, effects := [], prevented := true, retVal := false }
  else if !c.containerPresent then
    { coord := c, effects := [Effect.submitNative], prevented := true, retVal := false }
  else
    let c1 :=
      if c.containerHiddenClass then { c with containerHiddenClass := false } else c
    let r := attemptRender c1
    { coord := r.1, effects := r.2, prevented := true, retVal := false }

/-- Function `applyCompact()` (restricted to the page's one placeholder):
compare the rendered-size marker and `data-size` against the desired size
and, on mismatch, route through `attemptRender` on the container. -/
def applyCompact (c : Coord) : Coord × List Effect :=
  if !c.containerPresent then (c, []) else
  match c.curElem with
  | none => (c, [])
  | some el =>
    let size := desiredSize c.viewportWidth
    let applied := el.renderedSizeAttr.getD ""
    let desiredNorm := size.getD ""
    let currentAttrSize := el.sizeAttr.getD ""
    if applied == desiredNorm && currentAttrSize == desiredNorm then (c, [])
    else attemptRender c

/-- A callback handed to the readiness queue, abstracted to an identity plus
whether its body throws when invoked. -/
structure CallbackSpec where
  cid : Nat
  throws : Bool
deriving Repr, DecidableEq

/-- State of the readiness machinery: `grecaptchaReady` and
`grecaptchaReadyQueue`. -/
structure ReadyState where
  ready : Bool
  queue : List CallbackSpec
deriving Repr, DecidableEq

/-- The drain loop of `onRecaptchaApiLoaded`: `while (queue.length) { const
fn = queue.shift(); try { fn(); } catch (err) { console.error(...); } }`.
Returns the ids invoked, in invocation order, and the ids whose exception
was caught by the `try`/`catch` (logged, never propagated, so draining
continues past them). -/
def drainQueue : List CallbackSpec → List Nat × List Nat
  | [] => ([], [])
  | f :: rest =>
    let r := drainQueue rest
    (f.cid :: r.1, if f.throws then f.cid :: r.2 else r.2)

/-- Global callback `window.onRecaptchaApiLoaded()`: set the readiness flag,
then drain the queue.  Returns the new state, the invoked ids in order, and
the ids whose exceptions were caught. -/
def onRecaptchaApiLoaded (s : ReadyState) : ReadyState × List Nat × List Nat :=
  let r := drainQueue s.queue
  ({ ready := true, queue := [] }, r.1, r.2)

/-- Outcome of `whenGrecaptchaReady`: the callback either ran synchronously
or was appended to the queue. -/
inductive WhenReadyAction where
  | ranNow
  | queued
deriving Repr, DecidableEq

/-- Function `whenGrecaptchaReady(fn)`: invoke synchronously when ready,
otherwise append to the queue. -/
def whenGrecaptchaReady (s : ReadyState) (f : CallbackSpec) : ReadyState × WhenReadyAction :=
  if s.ready then (s, WhenReadyAction.ranNow)
  else ({ s with queue := s.queue ++ [f] }, WhenReadyAction.queued)

/-- Delays of the timers created in an effect trace, in creation order. -/
def timerDelays (effs : List Effect) : List Nat :=
  effs.filterMap (fun e =>
    match e with
    | Effect.timerSet _ d => some d
    | _ => none)

/-- Drive `n` successive timer firings, accumulating effects. -/
def driveTimers : Nat → Coord × List Effect → Coord × List Effect
  | 0, p => p
  | n + 1, p =>
    let r := fireTimer p.1
    driveTimers n (r.1, p.2 ++ r.2)

end RecaptchaDisplay

namespace FormJs

/-- View of the third-party `grecaptcha` API as form.js probes it:
whether `grecaptcha.getResponse` is callable, the response string per
widget id, whether `grecaptcha.render` is callable, and the result of a
render call (`none` means it threw). -/
structure Api where
  getResponseAvailable : Bool
  response : Nat → String
  renderAvailable : Bool
  renderResult : Option Nat

/-- Module-level state of form.js plus the DOM it touches: the bound widget
id, the deferred form (`pendingForm`), the container's visibility classes,
and whether the placeholder element exists. -/
structure St where
  recaptchaWidgetId : Option Nat
  pendingForm : Option Nat
  containerPresent : Bool
  containerHidden : Bool
  containerVisible : Bool
  placeholderPresent : Bool
deriving Repr, DecidableEq

/-- Function `renderRecaptchaIfNeeded()`: nothing to do when a widget is
already bound or the placeholder is missing; when the API is not yet
callable it starts a poll (no immediate state change); otherwise it calls
`grecaptcha.render`, binding the returned widget id (a throw is caught and
logged). -/
def renderRecaptchaIfNeeded (api : Api) (s : St) : St :=
  if s.recaptchaWidgetId.isSome then s
  else if !s.placeholderPresent then s
  else if !api.renderAvailable then s
  else
    match api.renderResult with
    | some wid => { s with recaptchaWidgetId := some wid }
    | none => s

/-- Function `showRecaptcha()`: reveal the container, render if needed and
scroll it into view.  Returns the new state plus whether a render attempt
was triggered and whether the container was scrolled into view. -/
def showRecaptcha (api : Api) (s : St) : St × Bool × Bool :=
  if !s.containerPresent then (s, false, false)
  else
    let s1 := { s with containerHidden := false, containerVisible := true }
    (renderRecaptchaIfNeeded api s1, true, true)

/-- Result of the form.js submit handler: final state, the handler's return
value, whether `preventDefault` ran, whether a render attempt was
triggered, whether the container was scrolled, and how many native
submissions the handler itself performed. -/
structure SubmitRes where
  st : St
  retVal : Bool
  prevented : Bool
  renderAttempted : Bool
  scrolled : Bool
  submissions : Nat
deriving Repr, DecidableEq

/-- Global handler `window.onSubmitForm(event)` of form.js: resolve the form
from `event.target` (falling back to `document.getElementById`); when a
widget is bound and its response query returns a non-empty token, return
`true` so the native submission proceeds; otherwise prevent the event,
record the form as `pendingForm`, reveal the recaptcha, and return
`false`. -/
def onSubmitForm (api : Api) (s : St) (eventTarget docForm : Option Nat) : SubmitRes :=
  let form := match eventTarget with | some f => some f | none => docForm
  match form with
  | none =>
    { st := s, retVal := true, prevented := false, renderAttempted := false,
      scrolled := false, submissions := 0 }
  | some f =>
    let solved :=
      match s.recaptchaWidgetId with
      | some wid => api.getResponseAvailable && !((api.response wid) == "")
      | none => false
    if solved then
      { st := s, retVal := true, prevented := false, renderAttempted := false,
        scrolled := false, submissions := 0 }
    else
      let r := showRecaptcha api { s with pendingForm := some f }
      { st := r.1, retVal := false, prevented := true, renderAttempted := r.2.1,
        scrolled := r.2.2, submissions := 0 }

end FormJs

namespace AnchorScroll

/-- The parts of `location` the click handler compares against. -/
structure Loc where
  origin : String
  pathname : String
deriving Repr, DecidableEq

/-- The parts of a resolved `new URL(href, location.href)` the handler
reads.  As in the browser, `hash` carries its leading `#` marker and is
empty when the URL has no fragment. -/
structure UrlParts where
  origin : String
  pathname : String
  hash : String
deriving Repr, DecidableEq

/-- Observable effects of the click handler. -/
inductive ClickEffect where
  | prevent
  | scrollTo (elemId : Nat)
  | pushHash (frag : String)
  | focusOn (elemId : Nat)
deriving Repr, DecidableEq

/-- Handler `onDocumentClick(e)` of anchor-scroll.js.  `anchorHit` records
whether `e.target.closest` matched an anchor whose href contains a
fragment marker; `href` is that anchor's href attribute; `resolve` is URL
resolution against the current location (`none` when the `URL` constructor
throws); `lookup` is `document.getElementById` with the
`getElementsByName` fallback.  Returns the effect trace (empty = default
navigation untouched). -/
def onDocumentClick (anchorHit : Bool) (href : Option String)
    (resolve : String → Option UrlParts) (loc : Loc)
    (lookup : String → Option Nat) : List ClickEffect :=
  if !anchorHit then [] else
  match href with
  | none => []
  | some h =>
    match resolve h with
    | some url =>
      if url.origin != loc.origin || url.pathname != loc.pathname then []
      else
        let id := url.hash.drop 1
        if id == "" then []
        else
          match lookup id with
          | none => []
          | some el =>
            [ClickEffect.prevent, ClickEffect.scrollTo el,
             ClickEffect.pushHash id, ClickEffect.focusOn el]
    | none =>
      match (h.splitOn "#").tail with
      | [] => []
      | parts =>
        let id := String.intercalate "#" parts
        if id == "" then []
        else
          match lookup id with
          | none => []
          | some el =>
            [ClickEffect.prevent, ClickEffect.scrollTo el,
             ClickEffect.pushHash id, ClickEffect.focusOn el]

end AnchorScroll

namespace Scenario

open RecaptchaDisplay

/-- A fresh, never-rendered placeholder. -/
def freshElem : Elem :=
  { id := 0, widgetIdAttr := none, sizeAttr := none, renderedSizeAttr := none,
    sitekey := some "SITE_KEY", theme := none }

/-- Page state at a wide viewport, API available, render oracle throwing on
every call (synchronous failure). -/
def syncFailStart : Coord :=
  { viewportWidth := 500, grecaptchaAvailable := true, grecaptchaReady := true,
    readyQueueLen := 0, formPresent := true, containerPresent := true,
    containerHiddenClass := false, curElem := some freshElem,
    retry := [], timers := [], errorText := none, nextId := 1,
    renderResults := [none, none, none, none, none, none, none],
    allowSubmit := false, hiddenTokens := [] }

/-- A placeholder already rendered at normal size (widget id bound, empty
rendered-size marker). -/
def renderedNormalElem : Elem :=
  { id := 0, widgetIdAttr := some 7, sizeAttr := none, renderedSizeAttr := some "",
    sitekey := some "SITE_KEY", theme := none }

/-- Page state after a successful normal-size render, with the viewport now
below the compact breakpoint and a healthy render oracle. -/
def narrowViewportState : Coord :=
  { viewportWidth := 300, grecaptchaAvailable := true, grecaptchaReady := true,
    readyQueueLen := 0, formPresent := true, containerPresent := true,
    containerHiddenClass := false, curElem := some renderedNormalElem,
    retry := [], timers := [], errorText := none, nextId := 1,
    renderResults := [some 8, some 9], allowSubmit := false, hiddenTokens := [] }

/-- Placeholder with a retry currently scheduled (`scheduled = true`). -/
def flaggedState : Coord :=
  { narrowViewportState with
      curElem := some freshElem,
      retry := [(0, ⟨2, true⟩)],
      timers := [(0, 2800)] }

/-- Rendered placeholder with a stale scheduled retry about to fire. -/
def staleRetryState : Coord :=
  { narrowViewportState with
      retry := [(0, ⟨1, true⟩)],
      timers := [(0, 700)] }

/-- State for the solved-callback scenario: form present, one stale hidden
token input. -/
def solvedFlowState : Coord :=
  { narrowViewportState with hiddenTokens := ["stale"] }

/-- Un-rendered placeholder at a wide viewport with the API not yet
available and no pending timer. -/
def apiAbsentState : Coord :=
  { syncFailStart with
      grecaptchaAvailable := false,
      retry := [(0, ⟨1, false⟩)],
      renderResults := [] }

/-- Queue of three callbacks A, B, C enqueued before readiness, with B
throwing. -/
def abcQueue : List CallbackSpec := [⟨1, false⟩, ⟨2, true⟩, ⟨3, false⟩]

/-- A callback registered after readiness. -/
def lateCallback : CallbackSpec := ⟨9, false⟩

/-- Readiness state after the API signalled load with an empty queue. -/
def readyIdleState : ReadyState := ⟨true, []⟩

/-- Concrete grecaptcha view for the form.js witnesses: response query
available but the widget unsolved. -/
def formApiUnsolved : FormJs.Api :=
  { getResponseAvailable := true, response := fun _ => "", renderAvailable := true,
    renderResult := some 3 }

/-- Concrete grecaptcha view for the form.js witnesses: widget solved with a
non-empty token. -/
def formApiSolved : FormJs.Api :=
  { getResponseAvailable := true, response := fun _ => "TOKEN123", renderAvailable := true,
    renderResult := some 3 }

/-- form.js state with no widget bound yet and the container hidden. -/
def formStNoWidget : FormJs.St :=
  { recaptchaWidgetId := none, pendingForm := none, containerPresent := true,
    containerHidden := true, containerVisible := false, placeholderPresent := true }

/-- form.js state with widget 4 bound and the container visible. -/
def formStWithWidget : FormJs.St :=
  { recaptchaWidgetId := some 4, pendingForm := none, containerPresent := true,
    containerHidden := false, containerVisible := true, placeholderPresent := true }

/-- A cross-origin resolved URL for the anchor-scroll witness. -/
def crossOriginUrl : AnchorScroll.UrlParts :=
  { origin := "https://other.example", pathname := "/page", hash := "#section" }

/-- The current location for the anchor-scroll witness. -/
def hereLoc : AnchorScroll.Loc :=
  { origin := "https://majdij.com", pathname := "/" }

end Scenario

section Theorems

open RecaptchaDisplay Scenario

/-- Writing a retry record and reading it back gives the written record. -/
theorem lookupRetry_setEntry_self (m : List (Nat × RetrySt)) (e : Nat) (s : RetrySt) :
    lookupRetry (setEntry m e s) e = s := by
  simp [lookupRetry, setEntry, List.lookup]

/-- C8 — while a placeholder's `scheduled` flag is set, a further call to
`scheduleRenderAttempt` is a strict no-op: the state is unchanged and, in
particular, no additional timer is created, however fast failures arrive. -/
theorem scheduler_noop_while_retry_scheduled (c : Coord) (el : Elem)
    (hcur : c.curElem = some el)
    (hflag : (lookupRetry c.retry el.id).scheduled = true) :
    scheduleRenderAttempt c = (c, []) := by
  unfold scheduleRenderAttempt
  split
  · rfl
  · rw [hcur]
    simp [hflag]

/-- Witness for C8 at the concrete state `flaggedState` (retry flag set,
attempt counter 2, one timer pending). -/
theorem scheduler_noop_while_retry_scheduled_witness :
    scheduleRenderAttempt flaggedState = (flaggedState, []) :=
  scheduler_noop_while_retry_scheduled flaggedState freshElem rfl rfl

/-- C9 — when the placeholder already carries a bound widget handle and the
render API is available, a scheduled retry that eventually fires is a
no-op: its effect trace is empty (no node replacement, no render call),
the placeholder is untouched and no render-oracle entry is consumed. -/
theorem fired_retry_noop_when_already_rendered (c : Coord) (el : Elem)
    (eid d : Nat) (rest : List (Nat × Nat))
    (ht : c.timers = (eid, d) :: rest)
    (hc : c.containerPresent = true)
    (hcur : c.curElem = some el)
    (hw : el.widgetIdAttr.isSome = true)
    (hapi : c.grecaptchaAvailable = true) :
    (fireTimer c).2 = [] ∧
    (fireTimer c).1.curElem = some el ∧
    (fireTimer c).1.renderResults = c.renderResults := by
  simp [fireTimer, timerFirePrologue, attemptRender, ht, hc, hcur, hw, hapi]

/-- Witness for C9 at the concrete state `staleRetryState` (widget 7 bound,
one stale timer pending). -/
theorem fired_retry_noop_when_already_rendered_witness :
    (fireTimer staleRetryState).2 = [] ∧
    (fireTimer staleRetryState).1.curElem = some renderedNormalElem ∧
    (fireTimer staleRetryState).1.renderResults = staleRetryState.renderResults :=
  fired_retry_noop_when_already_rendered staleRetryState renderedNormalElem 0 700 []
    rfl rfl rfl rfl rfl

/-- C3 — counterexample trace for the attempt-counter invariant: two
consecutive synchronous render failures on one placeholder.  The claim says
the counter resets to 0 only on a successful render and otherwise
monotonically increases towards the ceiling; in the code each failed
attempt has already replaced the placeholder node, re-keying the WeakMap,
so after the second failure the current placeholder's counter is again 1
(not 2), the second retry is again scheduled with the base delay 700 ms,
and no render ever succeeded (the widget-id attribute is still absent). -/
theorem failed_render_resets_attempt_counter :
    timerDelays (attemptRender syncFailStart).2 = [700] ∧
    timerDelays (fireTimer (attemptRender syncFailStart).1).2 = [700] ∧
    lookupRetry (fireTimer (attemptRender syncFailStart).1).1.retry 2 = ⟨1, true⟩ ∧
    ((fireTimer (attemptRender syncFailStart).1).1.curElem.map
      (fun e => e.widgetIdAttr)) = some none ∧
    (fireTimer (attemptRender syncFailStart).1).1.errorText = none := by
  decide

/-- C5 — counterexample trace for the five-failure scenario: starting from
an un-rendered placeholder whose render call throws every time, the initial
attempt plus five fired retries schedule six timers whose delays are all
the base 700 ms (no doubling), no terminal error message is ever shown, a
further timer is still pending afterwards, and the placeholder is left
unrendered.  The claim instead expects doubling delays, a terminal
user-visible message and zero further timers. -/
theorem five_sync_failures_constant_delays :
    timerDelays (driveTimers 5 (attemptRender syncFailStart)).2 =
      [700, 700, 700, 700, 700, 700] ∧
    (driveTimers 5 (attemptRender syncFailStart)).1.errorText = none ∧
    (driveTimers 5 (attemptRender syncFailStart)).1.timers = [(6, 700)] ∧
    ((driveTimers 5 (attemptRender syncFailStart)).1.curElem.map
      (fun e => e.widgetIdAttr)) = some none := by
  decide

/-- C7 — counterexample for responsive convergence: with the viewport at
300 px (below the 410 px breakpoint) and the placeholder already rendered
at normal size, `applyCompact` detects the size mismatch but routes through
`attemptRender`, whose already-rendered check returns immediately: the
effect trace is empty (no node replacement, no render call), the element
keeps its normal-size attributes, and repeating `applyCompact` changes
nothing — the bound size never converges to compact.  (The
matching-size branch, by contrast, is a strict no-op, so the idempotence
half of the claim holds.) -/
theorem applyCompact_rendered_widget_never_resizes :
    desiredSize narrowViewportState.viewportWidth = some "compact" ∧
    (applyCompact narrowViewportState).2 = [] ∧
    (applyCompact narrowViewportState).1.curElem = some renderedNormalElem ∧
    (applyCompact narrowViewportState).1 = { narrowViewportState with errorText := none } ∧
    (applyCompact (applyCompact narrowViewportState).1).2 = [] ∧
    (applyCompact (applyCompact narrowViewportState).1).1.curElem =
      some renderedNormalElem := by
  decide

/-- C4 — each time a retry is scheduled for a placeholder the delay equals
`RETRY_BASE_MS * 2 ^ attempts` (base 700 ms) and the attempt counter is
incremented at scheduling time: immediately after `scheduleRenderAttempt`
the stored counter is already `attempts + 1`, while the timer-fire prologue
leaves it unchanged.  Consequently, on a placeholder that persists across
failures (the API-unavailable path, where no node replacement happens), the
next scheduled retry after the timer fires carries delay
`RETRY_BASE_MS * 2 ^ (attempts + 1)`, strictly larger than the previous
one, up to the retry ceiling. -/
theorem backoff_delay_schedule_formula (c : Coord) (el : Elem)
    (hc : c.containerPresent = true)
    (hcur : c.curElem = some el)
    (hs : (lookupRetry c.retry el.id).scheduled = false)
    (ha : (lookupRetry c.retry el.id).attempts < MAX_RENDER_RETRIES) :
    (scheduleRenderAttempt c).2 =
      [Effect.timerSet el.id (RETRY_BASE_MS * 2 ^ (lookupRetry c.retry el.id).attempts)] ∧
    lookupRetry (scheduleRenderAttempt c).1.retry el.id =
      ⟨(lookupRetry c.retry el.id).attempts + 1, true⟩ ∧
    (c.grecaptchaAvailable = false → c.timers = [] →
      (lookupRetry c.retry el.id).attempts + 1 < MAX_RENDER_RETRIES →
      (fireTimer (scheduleRenderAttempt c).1).2 =
        [Effect.timerSet el.id
          (RETRY_BASE_MS * 2 ^ ((lookupRetry c.retry el.id).attempts + 1))]) ∧
    RETRY_BASE_MS * 2 ^ (lookupRetry c.retry el.id).attempts <
      RETRY_BASE_MS * 2 ^ ((lookupRetry c.retry el.id).attempts + 1) := by
  have ha2 : ¬ MAX_RENDER_RETRIES ≤ (lookupRetry c.retry el.id).attempts := Nat.not_le.mpr ha
  have hsched : scheduleRenderAttempt c =
      ({ c with
          retry := setEntry c.retry el.id ⟨(lookupRetry c.retry el.id).attempts + 1, true⟩,
          timers := c.timers ++
            [(el.id, RETRY_BASE_MS * 2 ^ (lookupRetry c.retry el.id).attempts)] },
        [Effect.timerSet el.id (RETRY_BASE_MS * 2 ^ (lookupRetry c.retry el.id).attempts)]) := by
    unfold scheduleRenderAttempt
    rw [hcur]
    simp [hc, hs, ha2]
  refine ⟨by rw [hsched], by rw [hsched]; exact lookupRetry_setEntry_self c.retry el.id _, ?_, ?_⟩
  · intro hap htm hlt
    have hlt2 : ¬ MAX_RENDER_RETRIES ≤ (lookupRetry c.retry el.id).attempts + 1 :=
      Nat.not_le.mpr hlt
    rw [hsched]
    simp only [htm, List.nil_append]
    simp [fireTimer, timerFirePrologue, attemptRender, scheduleRenderAttempt,
      hc, hcur, hap, hlt2, lookupRetry_setEntry_self]
  · have hp : 2 ^ (lookupRetry c.retry el.id).attempts <
        2 ^ ((lookupRetry c.retry el.id).attempts + 1) :=
      Nat.pow_lt_pow_right (by norm_num) (Nat.lt_succ_self _)
    unfold RETRY_BASE_MS
    omega

/-- Witness for C4 at the concrete state `apiAbsentState` (attempt counter
1, no retry scheduled, API unavailable, no pending timer): the retry is
scheduled with delay 1400 ms, the stored counter becomes 2 immediately,
and the follow-up retry after the timer fires carries delay 2800 ms. -/
theorem backoff_delay_schedule_formula_witness :
    (scheduleRenderAttempt apiAbsentState).2 =
      [Effect.timerSet freshElem.id
        (RETRY_BASE_MS * 2 ^ (lookupRetry apiAbsentState.retry freshElem.id).attempts)] ∧
    lookupRetry (scheduleRenderAttempt apiAbsentState).1.retry freshElem.id =
      ⟨(lookupRetry apiAbsentState.retry freshElem.id).attempts + 1, true⟩ ∧
    (apiAbsentState.grecaptchaAvailable = false → apiAbsentState.timers = [] →
      (lookupRetry apiAbsentState.retry freshElem.id).attempts + 1 < MAX_RENDER_RETRIES →
      (fireTimer (scheduleRenderAttempt apiAbsentState).1).2 =
        [Effect.timerSet freshElem.id
          (RETRY_BASE_MS *
            2 ^ ((lookupRetry apiAbsentState.retry freshElem.id).attempts + 1))]) ∧
    RETRY_BASE_MS * 2 ^ (lookupRetry apiAbsentState.retry freshElem.id).attempts <
      RETRY_BASE_MS * 2 ^ ((lookupRetry apiAbsentState.retry freshElem.id).attempts + 1) :=
  backoff_delay_schedule_formula apiAbsentState freshElem rfl rfl rfl (by decide)

/-- The interception logic of recaptcha-display.js prevents the event on
every path once the pre-approval flag is clear. -/
theorem onSubmitForm_prevented_of_not_allow (c : Coord) (h : c.allowSubmit = false) :
    (onSubmitForm c).prevented = true := by
  unfold onSubmitForm
  simp only [h, Bool.false_eq_true, if_false]
  split
  · rfl
  · split
    · rfl
    · rfl

/-- C2 — delivering a token to `onRecaptchaSuccess` leaves the form with
exactly one hidden `g-recaptcha-response` input holding that token
(overwriting a stale one, creating one if absent), performs exactly one
native submission (the programmatic `form.submit()`, which bypasses the
`onsubmit` handler), and sets the pre-approval flag; the first subsequent
pass through the interception logic consumes the flag — it returns `true`
with no interception and no further submission, clears the flag — and the
pass after that is intercepted again. -/
theorem success_callback_single_submission (c : Coord) (token : String)
    (hf : c.formPresent = true) (hlen : c.hiddenTokens.length ≤ 1) :
    (onRecaptchaSuccess c token).1.hiddenTokens = [token] ∧
    (onRecaptchaSuccess c token).2 = [Effect.submitNative] ∧
    (onRecaptchaSuccess c token).1.allowSubmit = true ∧
    (onSubmitForm (onRecaptchaSuccess c token).1).retVal = true ∧
    (onSubmitForm (onRecaptchaSuccess c token).1).prevented = false ∧
    (onSubmitForm (onRecaptchaSuccess c token).1).effects = [] ∧
    (onSubmitForm (onRecaptchaSuccess c token).1).coord.allowSubmit = false ∧
    (onSubmitForm (onSubmitForm (onRecaptchaSuccess c token).1).coord).prevented = true := by
  have hts : (match c.hiddenTokens with
      | [] => [token]
      | _ :: rest => token :: rest) = [token] := by
    match h : c.hiddenTokens with
    | [] => rfl
    | a :: t =>
      rw [h] at hlen
      simp at hlen
      simp [hlen]
  have hsucc : onRecaptchaSuccess c token =
      ({ c with hiddenTokens := [token], allowSubmit := true }, [Effect.submitNative]) := by
    unfold onRecaptchaSuccess
    rw [hf]
    simp only [Bool.not_true, Bool.false_eq_true, if_false]
    rw [hts]
  have hfirst : onSubmitForm (onRecaptchaSuccess c token).1 =
      { coord := { c with hiddenTokens := [token], allowSubmit := false },
        effects := [], prevented := false, retVal := true } := by
    rw [hsucc]
    unfold onSubmitForm
    rfl
  refine ⟨by rw [hsucc], by rw [hsucc], by rw [hsucc], by rw [hfirst], by rw [hfirst],
    by rw [hfirst], by rw [hfirst], ?_⟩
  rw [hfirst]
  exact onSubmitForm_prevented_of_not_allow _ rfl

/-- Witness for C2 at the concrete state `solvedFlowState` (form present,
one stale hidden token input) with token "TOKEN123". -/
theorem success_callback_single_submission_witness :
    (onRecaptchaSuccess solvedFlowState "TOKEN123").1.hiddenTokens = ["TOKEN123"] ∧
    (onRecaptchaSuccess solvedFlowState "TOKEN123").2 = [Effect.submitNative] ∧
    (onRecaptchaSuccess solvedFlowState "TOKEN123").1.allowSubmit = true ∧
    (onSubmitForm (onRecaptchaSuccess solvedFlowState "TOKEN123").1).retVal = true ∧
    (onSubmitForm (onRecaptchaSuccess solvedFlowState "TOKEN123").1).prevented = false ∧
    (onSubmitForm (onRecaptchaSuccess solvedFlowState "TOKEN123").1).effects = [] ∧
    (onSubmitForm
      (onRecaptchaSuccess solvedFlowState "TOKEN123").1).coord.allowSubmit = false ∧
    (onSubmitForm
      (onSubmitForm (onRecaptchaSuccess solvedFlowState "TOKEN123").1).coord).prevented =
      true :=
  success_callback_single_submission solvedFlowState "TOKEN123" rfl (by decide)

/-- The drain loop invokes exactly the queued callbacks, in enqueue order,
regardless of which of them throw. -/
theorem drainQueue_invoked (q : List CallbackSpec) :
    (drainQueue q).1 = q.map (fun cb => cb.cid) := by
  induction q with
  | nil => rfl
  | cons f rest ih => simp [drainQueue, ih]

/-- The exceptions caught by the drain loop are exactly those of the
throwing callbacks. -/
theorem drainQueue_caught (q : List CallbackSpec) :
    (drainQueue q).2 = (q.filter (fun cb => cb.throws)).map (fun cb => cb.cid) := by
  induction q with
  | nil => rfl
  | cons f rest ih =>
    by_cases hf : f.throws <;> simp [drainQueue, ih, hf]

/-- C6 — `onRecaptchaApiLoaded` sets readiness, empties the queue, and
invokes every queued callback exactly once, in enqueue (FIFO) order: the
invocation trace is the queue's ids, for every queue and every pattern of
throwing callbacks (so a throwing callback never stops the callbacks after
it — its exception is caught, as the caught-ids conjunct shows).  A
callback handed to `whenGrecaptchaReady` once ready runs synchronously and
is never queued. -/
theorem markReady_drains_queue_in_order (q : List CallbackSpec) (s : ReadyState)
    (f : CallbackSpec) (hr : s.ready = true) :
    (onRecaptchaApiLoaded ⟨false, q⟩).1.ready = true ∧
    (onRecaptchaApiLoaded ⟨false, q⟩).1.queue = [] ∧
    (onRecaptchaApiLoaded ⟨false, q⟩).2.1 = q.map (fun cb => cb.cid) ∧
    (onRecaptchaApiLoaded ⟨false, q⟩).2.2 =
      (q.filter (fun cb => cb.throws)).map (fun cb => cb.cid) ∧
    whenGrecaptchaReady s f = (s, WhenReadyAction.ranNow) := by
  refine ⟨rfl, rfl, ?_, ?_, ?_⟩
  · exact drainQueue_invoked q
  · exact drainQueue_caught q
  · unfold whenGrecaptchaReady
    rw [hr]
    rfl

/-- Witness for C6 with queue A, B, C where B throws, and a late callback
registered in the post-readiness state. -/
theorem markReady_drains_queue_in_order_witness :
    (onRecaptchaApiLoaded ⟨false, abcQueue⟩).1.ready = true ∧
    (onRecaptchaApiLoaded ⟨false, abcQueue⟩).1.queue = [] ∧
    (onRecaptchaApiLoaded ⟨false, abcQueue⟩).2.1 = abcQueue.map (fun cb => cb.cid) ∧
    (onRecaptchaApiLoaded ⟨false, abcQueue⟩).2.2 =
      (abcQueue.filter (fun cb => cb.throws)).map (fun cb => cb.cid) ∧
    whenGrecaptchaReady readyIdleState lateCallback =
      (readyIdleState, WhenReadyAction.ranNow) :=
  markReady_drains_queue_in_order abcQueue readyIdleState lateCallback rfl

/-- `renderRecaptchaIfNeeded` only ever binds the widget id: the pending
form and the container visibility classes pass through unchanged. -/
theorem renderRecaptchaIfNeeded_frame (api : FormJs.Api) (s : FormJs.St) :
    (FormJs.renderRecaptchaIfNeeded api s).pendingForm = s.pendingForm ∧
    (FormJs.renderRecaptchaIfNeeded api s).containerHidden = s.containerHidden ∧
    (FormJs.renderRecaptchaIfNeeded api s).containerVisible = s.containerVisible := by
  unfold FormJs.renderRecaptchaIfNeeded
  repeat' split
  all_goals simp

/-- C1 — the form.js submit gate.  When a widget is bound and its response
query returns a non-empty token, the handler returns `true` untouched
(native submission proceeds, no `preventDefault`, no state change, no
submission performed by the handler itself).  In every other case —
response query unavailable, empty token, or no widget bound at all — the
handler prevents the event, records the form as the pending submission,
un-hides and reveals the challenge container, triggers a render attempt,
returns `false`, and performs no native submission itself (submission can
only resume from the solved callback). -/
theorem form_submit_interception_gate (api : FormJs.Api) (s : FormJs.St)
    (f : Nat) (docForm : Option Nat)
    (hc : s.containerPresent = true) :
    ((∃ wid, s.recaptchaWidgetId = some wid ∧ api.getResponseAvailable = true ∧
        api.response wid ≠ "") →
      (FormJs.onSubmitForm api s (some f) docForm).retVal = true ∧
      (FormJs.onSubmitForm api s (some f) docForm).prevented = false ∧
      (FormJs.onSubmitForm api s (some f) docForm).st = s ∧
      (FormJs.onSubmitForm api s (some f) docForm).submissions = 0) ∧
    ((∀ wid, s.recaptchaWidgetId = some wid →
        api.getResponseAvailable = false ∨ api.response wid = "") →
      (FormJs.onSubmitForm api s (some f) docForm).prevented = true ∧
      (FormJs.onSubmitForm api s (some f) docForm).retVal = false ∧
      (FormJs.onSubmitForm api s (some f) docForm).st.pendingForm = some f ∧
      (FormJs.onSubmitForm api s (some f) docForm).st.containerHidden = false ∧
      (FormJs.onSubmitForm api s (some f) docForm).st.containerVisible = true ∧
      (FormJs.onSubmitForm api s (some f) docForm).renderAttempted = true ∧
      (FormJs.onSubmitForm api s (some f) docForm).submissions = 0) := by
  constructor
  · rintro ⟨wid, hwid, hav, hresp⟩
    have hsolved : (match s.recaptchaWidgetId with
        | some w => api.getResponseAvailable && !((api.response w) == "")
        | none => false) = true := by
      rw [hwid, hav]
      simp [hresp]
    unfold FormJs.onSubmitForm
    rw [hsolved]
    exact ⟨rfl, rfl, rfl, rfl⟩
  · intro hun
    have hsolved : (match s.recaptchaWidgetId with
        | some w => api.getResponseAvailable && !((api.response w) == "")
        | none => false) = false := by
      match hw : s.recaptchaWidgetId with
      | none => rfl
      | some w =>
        rcases hun w hw with h1 | h1
        · simp [h1]
        · simp [h1]
    have hsub : FormJs.onSubmitForm api s (some f) docForm =
        { st := FormJs.renderRecaptchaIfNeeded api
            { s with pendingForm := some f, containerHidden := false,
                     containerVisible := true },
          retVal := false, prevented := true, renderAttempted := true,
          scrolled := true, submissions := 0 } := by
      unfold FormJs.onSubmitForm
      rw [hsolved]
      simp only [Bool.false_eq_true, if_false]
      unfold FormJs.showRecaptcha
      simp [hc]
    have hframe := renderRecaptchaIfNeeded_frame api
      { s with pendingForm := some f, containerHidden := false, containerVisible := true }
    rw [hsub]
    exact ⟨rfl, rfl, hframe.1, hframe.2.1, hframe.2.2, rfl, rfl⟩

/-- Witness for C1 covering both directions: a solved widget (id 4, token
"TOKEN123") lets the submission through untouched; with no widget bound the
event on form 5 is intercepted, deferred and the challenge revealed. -/
theorem form_submit_interception_gate_witness :
    ((FormJs.onSubmitForm formApiSolved formStWithWidget (some 5) none).retVal = true ∧
     (FormJs.onSubmitForm formApiSolved formStWithWidget (some 5) none).prevented = false ∧
     (FormJs.onSubmitForm formApiSolved formStWithWidget (some 5) none).st =
       formStWithWidget ∧
     (FormJs.onSubmitForm formApiSolved formStWithWidget (some 5) none).submissions = 0) ∧
    ((FormJs.onSubmitForm formApiUnsolved formStNoWidget (some 5) none).prevented = true ∧
     (FormJs.onSubmitForm formApiUnsolved formStNoWidget (some 5) none).retVal = false ∧
     (FormJs.onSubmitForm formApiUnsolved formStNoWidget (some 5) none).st.pendingForm =
       some 5 ∧
     (FormJs.onSubmitForm formApiUnsolved formStNoWidget (some 5) none).st.containerHidden =
       false ∧
     (FormJs.onSubmitForm formApiUnsolved formStNoWidget
       (some 5) none).st.containerVisible = true ∧
     (FormJs.onSubmitForm formApiUnsolved formStNoWidget (some 5) none).renderAttempted =
       true ∧
     (FormJs.onSubmitForm formApiUnsolved formStNoWidget (some 5) none).submissions = 0) :=
  ⟨(form_submit_interception_gate formApiSolved formStWithWidget 5 none rfl).1
      ⟨4, rfl, rfl, by decide⟩,
   (form_submit_interception_gate formApiUnsolved formStNoWidget 5 none rfl).2
      (fun wid hw => nomatch hw)⟩

/-- C10 — for a click on an anchor whose resolved URL differs from the
current location in origin or pathname, or whose fragment is empty, or
whose fragment matches no element, the click handler produces no effect at
all: no `preventDefault`, no scrolling, no history entry — default
navigation is left untouched. -/
theorem anchor_click_ignores_nonlocal_targets (h : String)
    (resolve : String → Option AnchorScroll.UrlParts) (loc : AnchorScroll.Loc)
    (lookup : String → Option Nat) (url : AnchorScroll.UrlParts)
    (hres : resolve h = some url)
    (hcond : url.origin ≠ loc.origin ∨ url.pathname ≠ loc.pathname ∨
      url.hash.drop 1 = "" ∨ lookup (url.hash.drop 1) = none) :
    AnchorScroll.onDocumentClick true (some h) resolve loc lookup = [] := by
  rcases hcond with h1 | h1 | h1 | h1 <;>
    simp [AnchorScroll.onDocumentClick, hres, h1]

/-- Witness for C10: a click on a cross-origin link resolved against the
site location produces no effects. -/
theorem anchor_click_ignores_nonlocal_targets_witness :
    AnchorScroll.onDocumentClick true (some "https://other.example/page#section")
      (fun _ => some crossOriginUrl) hereLoc (fun _ => none) = [] :=
  anchor_click_ignores_nonlocal_targets "https://other.example/page#section"
    (fun _ => some crossOriginUrl) hereLoc (fun _ => none) crossOriginUrl rfl
    (Or.inl (by decide))

end Theorems
